import Mathlib

/-!
Verification of the blackjack-variant simulation engine.

This file gives a shallow embedding of the engine's core modules —
`src/game/card.py`, `src/game/deck.py`, `src/game/hand.py`,
`src/strategy/dealer_strategy.py`, `src/strategy/player_strategy.py`,
`src/simulation/config.py`, `src/simulation/simulator.py` and
`src/simulation/sidebet_simulator.py` — and proves properties of the
embedded definitions.  Python lists become `List`, dictionaries keyed by a
finite key space become total functions updated pointwise, floats become
exact rationals (`ℚ`), and the ambient random shuffle becomes an explicit
function parameter constrained to be a permutation where a property needs
it.  Loops that draw from the shoe are given explicit fuel and return
`Option`, modelling the fact that a Python draw from an exhausted shoe
raises.
-/

namespace BJSim

/-! ## Cards (`src/game/card.py`) -/

inductive Suit
  | hearts | diamonds | clubs | spades
  deriving DecidableEq, Repr

inductive Rank
  | r2 | r3 | r4 | r5 | r6 | r7 | r8 | r9 | r10
  | jack | queen | king | ace
  deriving DecidableEq, Repr

structure Card where
  suit : Suit
  rank : Rank
  deriving DecidableEq, Repr

/-- `Card.get_value`: numeric rank → itself, face card → 10, Ace → 11. -/
def Card.get_value (c : Card) : Nat :=
  match c.rank with
  | .ace => 11
  | .jack | .queen | .king => 10
  | .r2 => 2 | .r3 => 3 | .r4 => 4 | .r5 => 5 | .r6 => 6
  | .r7 => 7 | .r8 => 8 | .r9 => 9 | .r10 => 10

def Suit.all : List Suit := [.hearts, .diamonds, .clubs, .spades]

def Rank.all : List Rank :=
  [.r2, .r3, .r4, .r5, .r6, .r7, .r8, .r9, .r10, .jack, .queen, .king, .ace]

/-! ## Hands (`src/game/hand.py`) -/

structure Hand where
  cards : List Card
  is_dealer_hand : Bool
  deriving DecidableEq, Repr

def Hand.empty : Hand := ⟨[], false⟩

def Hand.add_card (h : Hand) (c : Card) : Hand :=
  { h with cards := h.cards ++ [c] }

/-- Number of aces in a card list (the `ace_count` accumulator of
`Hand.get_value`). -/
def aceCount (cs : List Card) : Nat :=
  (cs.filter (fun c => c.rank = Rank.ace)).length

/-- Sum of nominal card values, counting each Ace as 11 (the `total_value`
accumulated by the first loop of `Hand.get_value`). -/
def nominalSum (cs : List Card) : Nat :=
  (cs.map Card.get_value).sum

/-- The ace-adjustment loop of `Hand.get_value`:
`while total_value > 21 and ace_count > 0: total_value -= 10; ace_count -= 1`. -/
def adjustAces : Nat → Nat → Nat
  | total, 0 => total
  | total, n + 1 => if total > 21 then adjustAces (total - 10) n else total

/-- `Hand.get_value`: nominal sum with each Ace as 11, then the
ace-adjustment loop. -/
def Hand.get_value (h : Hand) : Nat :=
  adjustAces (nominalSum h.cards) (aceCount h.cards)

/-- `Hand.is_blackjack`: exactly two cards totalling 21. -/
def Hand.is_blackjack (h : Hand) : Bool :=
  h.cards.length = 2 ∧ h.get_value = 21

/-- `Hand.is_bust`: value over 21. -/
def Hand.is_bust (h : Hand) : Bool :=
  h.get_value > 21

/-- Sum of `get_value` over the non-Ace cards (the `non_ace_value` of
`Hand.is_soft`). -/
def nonAceValue (cs : List Card) : Nat :=
  ((cs.filter (fun c => ¬ c.rank = Rank.ace)).map Card.get_value).sum

/-- `Hand.is_soft`: has an Ace, and counting every Ace as 1 the total plus
10 stays within 21. -/
def Hand.is_soft (h : Hand) : Bool :=
  let has_ace := h.cards.any (fun c => c.rank = Rank.ace)
  if ¬ has_ace then false
  else
    let test_value := nonAceValue h.cards + aceCount h.cards
    test_value + 10 ≤ 21

/-- `Hand.get_dealer_up_card`: first card, only for a non-empty dealer
hand. -/
def Hand.get_dealer_up_card (h : Hand) : Option Card :=
  if h.is_dealer_hand ∧ ¬ h.cards.isEmpty then h.cards.head? else none

/-! ## Deck and shoe (`src/game/deck.py`) -/

/-- `Deck._build`: the 52 cards, suits outermost, ranks in listed order. -/
def Deck.build : List Card :=
  Suit.all.flatMap (fun s => Rank.all.map (fun r => ⟨s, r⟩))

/-- The mutable state of a `Shoe`.  `continuous_shuffle` is the flag cached
at construction as `reshuffle_cutoff == 0`. -/
structure ShoeState where
  num_decks : Nat
  reshuffle_cutoff : Nat
  cards : List Card
  discard_pile : List Card
  continuous_shuffle : Bool
  deriving DecidableEq, Repr

/-- `Shoe.build_and_shuffle`, with `random.shuffle` abstracted into the
explicit `shuffle` parameter: `num_decks` fresh decks, then the discard
pile folded in and cleared, then the shuffle. -/
def ShoeState.build_and_shuffle (shuffle : List Card → List Card)
    (s : ShoeState) : ShoeState :=
  let fresh := (List.replicate s.num_decks Deck.build).flatten
  let withDiscard :=
    if s.discard_pile.isEmpty then fresh else fresh ++ s.discard_pile
  { s with cards := shuffle withDiscard, discard_pile := [] }

/-- `Shoe.__init__`: store the configuration, cache
`continuous_shuffle = (reshuffle_cutoff == 0)`, then `build_and_shuffle`. -/
def ShoeState.mk' (shuffle : List Card → List Card)
    (num_decks reshuffle_cutoff : Nat) : ShoeState :=
  ShoeState.build_and_shuffle shuffle
    { num_decks := num_decks
      reshuffle_cutoff := reshuffle_cutoff
      cards := []
      discard_pile := []
      continuous_shuffle := reshuffle_cutoff = 0 }

/-- `Shoe.draw`: if the remaining count is at or below the cutoff and the
shoe is not continuous-shuffle, rebuild first; then pop the front card, or
fail (`IndexError`) if the shoe is empty. -/
def ShoeState.draw (shuffle : List Card → List Card) (s : ShoeState) :
    Option (Card × ShoeState) :=
  let s :=
    if s.cards.length ≤ s.reshuffle_cutoff ∧ ¬ s.continuous_shuffle then
      s.build_and_shuffle shuffle
    else s
  match s.cards with
  | [] => none
  | c :: rest => some (c, { s with cards := rest })

/-- `Shoe.return_to_discard`: append to the discard pile; in continuous
mode immediately fold the discard back into the shoe and reshuffle. -/
def ShoeState.return_to_discard (shuffle : List Card → List Card)
    (s : ShoeState) (cs : List Card) : ShoeState :=
  let s := { s with discard_pile := s.discard_pile ++ cs }
  if s.continuous_shuffle then
    { s with cards := shuffle (s.cards ++ s.discard_pile), discard_pile := [] }
  else s

/-- A shuffle is modelled as any length-preserving rearrangement; the
claims proved here only depend on lengths, so permutation is weakened to
length preservation. -/
def PreservesLength (shuffle : List Card → List Card) : Prop :=
  ∀ l : List Card, (shuffle l).length = l.length

/-! ## Strategies (`src/strategy/dealer_strategy.py`,
`src/strategy/player_strategy.py`) -/

/-- `DealerStrategy.should_hit`: hit below 17; hit soft 17 when the
`hit_soft_17` rule is on; otherwise stand. -/
def dealerShouldHit (hit_soft_17 : Bool) (hand : Hand) : Bool :=
  let hand_value := hand.get_value
  if hand_value < 17 then true
  else if hand_value = 17 ∧ hand.is_soft ∧ hit_soft_17 then true
  else false

/-- A key of the player `hit_rules` dict: either a hard total
`(player_total, dealer_up_card_value)` or a soft-tagged total
`("soft N", dealer_up_card_value)`. -/
inductive HandDesc
  | hard (n : Nat)
  | soft (n : Nat)
  deriving DecidableEq, Repr

/-- The player `hit_rules` dict, as an association list with the dict's
key-uniqueness replaced by first-match lookup. -/
abbrev RuleTable := List ((HandDesc × Nat) × Bool)

def lookupRule (rules : RuleTable) (k : HandDesc × Nat) : Option Bool :=
  match rules with
  | [] => none
  | (k', b) :: rest => if k' = k then some b else lookupRule rest k

structure PlayerStrategy where
  stand_threshold : Nat
  hit_soft_17 : Bool
  hit_rules : RuleTable

/-- `PlayerStrategy.should_hit`: when an up-card is given and the rule
table is non-empty, try the hard-total rule for a hard hand and the
soft-tagged rule for a soft hand; otherwise fall back to the threshold
default (hit below `stand_threshold`, or at soft 17 with `hit_soft_17`). -/
def PlayerStrategy.should_hit (ps : PlayerStrategy) (player_hand : Hand)
    (dealer_up_card : Option Card) : Bool :=
  let hand_value := player_hand.get_value
  let ruleHit : Option Bool :=
    match dealer_up_card with
    | none => none
    | some up =>
      if ps.hit_rules.isEmpty then none
      else
        let dealer_value := up.get_value
        if ¬ player_hand.is_soft then
          lookupRule ps.hit_rules (.hard hand_value, dealer_value)
        else
          lookupRule ps.hit_rules (.soft hand_value, dealer_value)
  match ruleHit with
  | some b => b
  | none =>
    if hand_value < ps.stand_threshold then true
    else if hand_value = 17 ∧ player_hand.is_soft ∧ ps.hit_soft_17 then true
    else false

/-! ## Configuration (`src/simulation/config.py`) -/

/-- Side-bet payout mode: `"total"` or card-count (`else` branch). -/
inductive SbMode
  | total | cards
  deriving DecidableEq, Repr

/-- A key of the `sidebet_payouts` dict (both modes' key spaces merged;
`dict.get(k, 0)` becomes a total function into ℚ). -/
inductive SbKey
  | num (n : Nat)
  | bustBust
  | blackjackBlackjack
  | twelvePlus
  deriving DecidableEq, Repr

structure SimulationConfig where
  num_hands : Nat
  num_decks : Nat
  player_hit_soft_17 : Bool
  dealer_hit_soft_17 : Bool
  reshuffle_cutoff : Nat
  commission_pct : ℚ
  blackjack_payout : ℚ
  num_players : Nat
  player_hit_rules : RuleTable
  commission_on_blackjack : Bool
  hit_against_blackjack : Bool
  sidebet_payout_mode : SbMode
  sidebet_payouts : SbKey → ℚ

/-- `SimulationConfig.get_commission_multiplier`:
`1.0 - commission_pct / 100.0`. -/
def SimulationConfig.get_commission_multiplier (c : SimulationConfig) : ℚ :=
  1 - c.commission_pct / 100

/-! ## Results records (`BlackjackSimulator.setup`,
`SidebetSimulator.setup`) -/

/-- The result strings produced by `play_hand` and consumed by
`update_statistics`. -/
inductive HandResult
  | player_win
  | dealer_win
  | push
  | player_win_blackjack
  deriving DecidableEq, Repr

/-- Point-update of a dict modelled as a total function (the
`if key not in d: d[key] = 0` then `d[key] += 1` idiom). -/
def bump {κ : Type} [DecidableEq κ] (m : κ → Nat) (k : κ) : κ → Nat :=
  fun k' => if k' = k then m k + 1 else m k'

/-- The base `self.results` dict of `BlackjackSimulator.setup`. -/
structure SimResults where
  player_wins : Nat
  dealer_wins : Nat
  pushes : Nat
  blackjacks : Nat
  player_busts : Nat
  dealer_busts : Nat
  net_win_amount : ℚ
  total_bets : Nat
  outcome_matrix : Nat × Nat → Nat
  outcome_details : Nat × Nat × HandResult → Nat

def SimResults.init : SimResults :=
  { player_wins := 0, dealer_wins := 0, pushes := 0, blackjacks := 0
    player_busts := 0, dealer_busts := 0, net_win_amount := 0, total_bets := 0
    outcome_matrix := fun _ => 0, outcome_details := fun _ => 0 }

/-- `pushes_by_value` key space: `{17, 18, 19, 20, 21, 'bust', 'blackjack'}`. -/
inductive PushKey
  | num (n : Nat)
  | bust
  | blackjack
  deriving DecidableEq, Repr

/-- The `value_type` computed by `SidebetSimulator.update_statistics`
(including the `'21_with_bj'` tag and the `None` it is initialized to). -/
inductive VType
  | vNum (n : Nat)
  | vBust
  | vBlackjack
  | v21WithBj
  | vNone
  deriving DecidableEq, Repr

/-- The `card_count_key`: the total card count below 12, else `'12+'`. -/
inductive CardCountKey
  | num (n : Nat)
  | twelvePlus
  deriving DecidableEq, Repr

/-- The extra keys `SidebetSimulator.setup` adds to `self.results`. -/
structure SidebetResults extends SimResults where
  total_pushes : Nat
  pushes_by_value : PushKey → Nat
  pushes_by_card_count : CardCountKey → Nat
  pushes_detail_matrix : VType × CardCountKey → Nat
  sidebet_wins : Nat
  sidebet_payouts : ℚ
  sidebet_edge : ℚ
  player_blackjacks : Nat
  dealer_blackjacks : Nat

def SidebetResults.init : SidebetResults :=
  { SimResults.init with
    total_pushes := 0
    pushes_by_value := fun _ => 0
    pushes_by_card_count := fun _ => 0
    pushes_detail_matrix := fun _ => 0
    sidebet_wins := 0, sidebet_payouts := 0, sidebet_edge := 0
    player_blackjacks := 0, dealer_blackjacks := 0 }

/-! ## Draw loops shared by both simulators

The `while should_hit: add_card(draw())` loops, with explicit fuel; `none`
models a raised `IndexError` (empty shoe) or an unfinished loop. -/

def playerDrawLoop (shuffle : List Card → List Card) (ps : PlayerStrategy)
    (dealer_up_card : Option Card) :
    Nat → ShoeState → Hand → Option (Hand × ShoeState)
  | 0, st, h =>
    if ps.should_hit h dealer_up_card then none else some (h, st)
  | fuel + 1, st, h =>
    if ps.should_hit h dealer_up_card then
      match st.draw shuffle with
      | none => none
      | some (c, st') => playerDrawLoop shuffle ps dealer_up_card fuel st' (h.add_card c)
    else some (h, st)

def dealerDrawLoop (shuffle : List Card → List Card) (hit_soft_17 : Bool) :
    Nat → ShoeState → Hand → Option (Hand × ShoeState)
  | 0, st, h =>
    if dealerShouldHit hit_soft_17 h then none else some (h, st)
  | fuel + 1, st, h =>
    if dealerShouldHit hit_soft_17 h then
      match st.draw shuffle with
      | none => none
      | some (c, st') => dealerDrawLoop shuffle hit_soft_17 fuel st' (h.add_card c)
    else some (h, st)

/-- Everything `play_hand` produces or mutates: the returned
`(result, player_value, dealer_value)` triple, the two hands after their
in-place mutation, the shoe, and `self.results` (the base `play_hand`
increments `results['blackjacks']`). -/
structure PlayOutcome (ρ : Type) where
  result : HandResult
  player_value : Nat
  dealer_value : Nat
  player_hand : Hand
  dealer_hand : Hand
  shoe : ShoeState
  results : ρ

/-! ## `BlackjackSimulator` (`src/simulation/simulator.py`) -/

/-- `BlackjackSimulator.play_hand`.  In this variant the bettor backs the
dealer: `"player_win"` is a win for the bettor.  A player blackjack alone
returns `"dealer_win"`; a dealer blackjack alone returns
`"player_win_blackjack"`. -/
def playHand (shuffle : List Card → List Card) (ps : PlayerStrategy)
    (dealer_hit_soft_17 : Bool) (fuel : Nat) (res : SimResults)
    (st : ShoeState) (player_hand dealer_hand : Hand) :
    Option (PlayOutcome SimResults) :=
  let player_blackjack := player_hand.is_blackjack
  let dealer_blackjack := dealer_hand.is_blackjack
  if player_blackjack ∧ dealer_blackjack then
    some ⟨.push, 21, 21, player_hand, dealer_hand, st,
      { res with blackjacks := res.blackjacks + 1 }⟩
  else if player_blackjack then
    some ⟨.dealer_win, 21, dealer_hand.get_value, player_hand, dealer_hand, st,
      { res with blackjacks := res.blackjacks + 1 }⟩
  else if dealer_blackjack then
    some ⟨.player_win_blackjack, player_hand.get_value, 21, player_hand,
      dealer_hand, st, { res with blackjacks := res.blackjacks + 1 }⟩
  else
    let dealer_up_card := dealer_hand.get_dealer_up_card
    match playerDrawLoop shuffle ps dealer_up_card fuel st player_hand with
    | none => none
    | some (ph, st) =>
      let player_value := ph.get_value
      let player_busted := ph.is_bust
      match dealerDrawLoop shuffle dealer_hit_soft_17 fuel st dealer_hand with
      | none => none
      | some (dh, st) =>
        let dealer_value := dh.get_value
        let dealer_busted := dh.is_bust
        let result : HandResult :=
          if player_busted ∧ dealer_busted then .push
          else if player_busted then .player_win
          else if dealer_busted then .dealer_win
          else if player_value > dealer_value then .dealer_win
          else if dealer_value > player_value then .player_win
          else .push
        some ⟨result, player_value, dealer_value, ph, dh, st, res⟩

/-- `BlackjackSimulator.update_statistics`. -/
def updateStatistics (cfg : SimulationConfig) (res : SimResults)
    (result : HandResult) (player_value dealer_value : Nat) : SimResults :=
  let res :=
    if result = .player_win ∨ result = .player_win_blackjack then
      let win_amount : ℚ :=
        if result = .player_win_blackjack then
          let w := (cfg.blackjack_payout - 1) + 1
          if cfg.commission_on_blackjack then
            w * cfg.get_commission_multiplier
          else w
        else cfg.get_commission_multiplier
      { res with player_wins := res.player_wins + 1
                 net_win_amount := res.net_win_amount + win_amount }
    else if result = .dealer_win then
      { res with dealer_wins := res.dealer_wins + 1
                 net_win_amount := res.net_win_amount - 1 }
    else
      { res with pushes := res.pushes + 1 }
  let res :=
    if player_value > 21 then
      { res with player_busts := res.player_busts + 1 }
    else res
  let res :=
    if dealer_value > 21 then
      { res with dealer_busts := res.dealer_busts + 1 }
    else res
  let player_key := min player_value 30
  let dealer_key := min dealer_value 30
  let res :=
    { res with outcome_matrix := bump res.outcome_matrix (player_key, dealer_key) }
  let result_for_storage :=
    if result = .player_win_blackjack then HandResult.player_win else result
  let details := bump res.outcome_details (player_key, dealer_key, result_for_storage)
  let res := { res with outcome_details := details }
  { res with total_bets := res.total_bets + 1 }

/-- The final house-edge computation of `BlackjackSimulator.run_simulation`
(`-net_win_amount / total_bets`, with no `* 100`), in the
`total_bets > 0` branch. -/
def houseEdgeBase (res : SimResults) : ℚ :=
  if res.total_bets > 0 then -res.net_win_amount / res.total_bets else 0

/-! ## `SidebetSimulator` (`src/simulation/sidebet_simulator.py`) -/

/-- `SidebetSimulator.play_hand`.  Note the orientation of the result
strings: a dealer blackjack alone and a player bust alone return
`"dealer_win"`, a player blackjack alone and a dealer bust alone return
`"player_win"` — the classic orientation, opposite to
`BlackjackSimulator.play_hand`. -/
def sidebetPlayHand (shuffle : List Card → List Card) (ps : PlayerStrategy)
    (cfg : SimulationConfig) (fuel : Nat) (res : SidebetResults)
    (st : ShoeState) (player_hand dealer_hand : Hand) :
    Option (PlayOutcome SidebetResults) :=
  let player_blackjack := player_hand.is_blackjack
  let dealer_blackjack := dealer_hand.is_blackjack
  let res :=
    if player_blackjack then
      { res with player_blackjacks := res.player_blackjacks + 1 }
    else res
  let res :=
    if dealer_blackjack then
      { res with dealer_blackjacks := res.dealer_blackjacks + 1 }
    else res
  if player_blackjack ∧ dealer_blackjack then
    some ⟨.push, 21, 21, player_hand, dealer_hand, st, res⟩
  else if dealer_blackjack ∧ ¬ player_blackjack then
    if cfg.hit_against_blackjack then
      let dealer_up_card := dealer_hand.get_dealer_up_card
      match playerDrawLoop shuffle ps dealer_up_card fuel st player_hand with
      | none => none
      | some (ph, st) =>
        some ⟨.dealer_win, ph.get_value, 21, ph, dealer_hand, st, res⟩
    else
      some ⟨.dealer_win, player_hand.get_value, 21, player_hand, dealer_hand,
        st, res⟩
  else if player_blackjack ∧ ¬ dealer_blackjack then
    some ⟨.player_win, 21, dealer_hand.get_value, player_hand, dealer_hand,
      st, res⟩
  else
    let dealer_up_card := dealer_hand.get_dealer_up_card
    match playerDrawLoop shuffle ps dealer_up_card fuel st player_hand with
    | none => none
    | some (ph, st) =>
      let player_value := ph.get_value
      let player_busted := ph.is_bust
      match dealerDrawLoop shuffle cfg.dealer_hit_soft_17 fuel st dealer_hand with
      | none => none
      | some (dh, st) =>
        let dealer_value := dh.get_value
        let dealer_busted := dh.is_bust
        let result : HandResult :=
          if player_busted ∧ dealer_busted then .push
          else if player_busted then .dealer_win
          else if dealer_busted then .player_win
          else if player_value > dealer_value then .player_win
          else if dealer_value > player_value then .dealer_win
          else .push
        some ⟨result, player_value, dealer_value, ph, dh, st, res⟩

/-- The `value_type` classification inside
`SidebetSimulator.update_statistics` (the four-way `if` on `player_value`
and the two hands' blackjack status; `vNone` is the value `value_type` is
initialized to when no branch assigns it). -/
def sbValueType (player_value : Nat) (player_hand dealer_hand : Hand) : VType :=
  if player_value > 21 then .vBust
  else if player_hand.is_blackjack ∧ dealer_hand.is_blackjack then .vBlackjack
  else if player_value = 21 then
    if player_hand.is_blackjack ∨ dealer_hand.is_blackjack then .v21WithBj
    else .vNum 21
  else if 17 ≤ player_value ∧ player_value ≤ 21 then .vNum player_value
  else .vNone

/-- `SidebetSimulator.update_statistics`.

The source's first statement forwards five arguments
(`result, player_value, dealer_value, player_hand, dealer_hand`) to
`BlackjackSimulator.update_statistics`, whose signature accepts only
`(result, player_value, dealer_value)`; as written, that call raises
`TypeError` on every invocation.  The embedding models the evidently
intended call of the base three-parameter update, and then translates the
push bookkeeping of the body verbatim. -/
def sidebetUpdateStatistics (cfg : SimulationConfig) (res : SidebetResults)
    (result : HandResult) (player_value dealer_value : Nat)
    (player_hand dealer_hand : Hand) : SidebetResults :=
  let base := updateStatistics cfg res.toSimResults result player_value dealer_value
  let res := { res with toSimResults := base }
  let res : SidebetResults :=
    if result = .push then
      let res := { res with total_pushes := res.total_pushes + 1 }
      let value_type := sbValueType player_value player_hand dealer_hand
      let res :=
        if player_value > 21 then
          { res with pushes_by_value := bump res.pushes_by_value .bust }
        else if player_hand.is_blackjack ∧ dealer_hand.is_blackjack then
          { res with pushes_by_value := bump res.pushes_by_value .blackjack }
        else if player_value = 21 then
          { res with pushes_by_value := bump res.pushes_by_value (.num 21) }
        else if 17 ≤ player_value ∧ player_value ≤ 21 then
          { res with pushes_by_value := bump res.pushes_by_value (.num player_value) }
        else res
      let total_cards := player_hand.cards.length + dealer_hand.cards.length
      let card_count_key : CardCountKey :=
        if total_cards ≥ 12 then .twelvePlus else .num total_cards
      let res :=
        if total_cards ≥ 12 then
          { res with pushes_by_card_count := bump res.pushes_by_card_count .twelvePlus }
        else if 4 ≤ total_cards ∧ total_cards ≤ 11 then
          { res with pushes_by_card_count := bump res.pushes_by_card_count (.num total_cards) }
        else res
      let matrix := bump res.pushes_detail_matrix (value_type, card_count_key)
      let res := { res with pushes_detail_matrix := matrix }
      let payout_multiplier : ℚ :=
        match cfg.sidebet_payout_mode with
        | .total =>
          if player_value > 21 then cfg.sidebet_payouts .bustBust
          else if player_hand.is_blackjack ∧ dealer_hand.is_blackjack then
            cfg.sidebet_payouts .blackjackBlackjack
          else cfg.sidebet_payouts (.num player_value)
        | .cards =>
          if total_cards ≥ 12 then cfg.sidebet_payouts .twelvePlus
          else cfg.sidebet_payouts (.num total_cards)
      { res with sidebet_wins := res.sidebet_wins + 1
                 sidebet_payouts := res.sidebet_payouts + payout_multiplier }
    else res
  if res.total_bets > 0 then
    { res with sidebet_edge :=
        (res.sidebet_payouts - res.total_bets) / res.total_bets * 100 }
  else res

/-- The final house-edge computation of `SidebetSimulator.run_simulation`
(`-net_win_amount / total_bets * 100`); the source assigns the field only
in the `total_bets > 0` branch. -/
def houseEdgeSidebet (res : SimResults) : ℚ :=
  if res.total_bets > 0 then -res.net_win_amount / res.total_bets * 100 else 0

/-- Folding `BlackjackSimulator.update_statistics` over a scripted
sequence of `(result, player_value, dealer_value)` rounds, as the loop of
`run_simulation` does. -/
def foldStats (cfg : SimulationConfig) (rounds : List (HandResult × Nat × Nat)) :
    SimResults :=
  rounds.foldl (fun acc r => updateStatistics cfg acc r.1 r.2.1 r.2.2)
    SimResults.init

/-! ## Default configuration (`SimulationConfig.__init__` defaults) -/

/-- The default `sidebet_payouts` dict for `"total"` mode:
`{17:1, 18:1, 19:1, 20:1, 21:1, 'bust-bust':1, 'blackjack-blackjack':1}`,
with `dict.get`'s default 0 on every other key. -/
def defaultTotalPayouts : SbKey → ℚ
  | .num n => if 17 ≤ n ∧ n ≤ 21 then 1 else 0
  | .bustBust => 1
  | .blackjackBlackjack => 1
  | .twelvePlus => 0

/-- The keyword defaults of `SimulationConfig.__init__`. -/
def SimulationConfig.default : SimulationConfig :=
  { num_hands := 100000000
    num_decks := 6
    player_hit_soft_17 := false
    dealer_hit_soft_17 := false
    reshuffle_cutoff := 52
    commission_pct := 5
    blackjack_payout := 1
    num_players := 1
    player_hit_rules := []
    commission_on_blackjack := true
    hit_against_blackjack := false
    sidebet_payout_mode := .total
    sidebet_payouts := defaultTotalPayouts }

/-! ## Theorems -/

/-- The number of 10-point reductions needed to bring a nominal total `s`
to at most 21: zero when `s` is already within 21, else the least `k` with
`s - 10 * k ≤ 21`. -/
def reductionsNeeded (s : Nat) : Nat :=
  if s ≤ 21 then 0 else (s - 22) / 10 + 1

lemma reductionsNeeded_least (s k : Nat) :
    s - 10 * k ≤ 21 ↔ reductionsNeeded s ≤ k := by
  unfold reductionsNeeded
  split <;> omega

lemma adjustAces_eq (n : Nat) : ∀ t : Nat,
    adjustAces t n = t - 10 * min n (reductionsNeeded t) := by
  induction n with
  | zero => intro t; simp [adjustAces]
  | succ n ih =>
    intro t
    rw [adjustAces]
    by_cases h : t > 21
    · rw [if_pos h, ih]
      unfold reductionsNeeded
      split <;> split <;> omega
    · rw [if_neg h]
      unfold reductionsNeeded
      rw [if_pos (by omega)]
      omega

/-- C7: `Hand.get_value` returns the nominal sum (numeric rank → itself,
face → 10, Ace → 11) reduced by 10 once per Ace, only while the running
total exceeds 21 and an unreduced Ace remains — i.e. the reduction is
applied `min (aceCount) (least k with sum - 10k ≤ 21)` times. -/
theorem hand_value_ace_adjustment (h : Hand) :
    h.get_value =
      nominalSum h.cards -
        10 * min (aceCount h.cards) (reductionsNeeded (nominalSum h.cards)) := by
  unfold Hand.get_value
  rw [adjustAces_eq]

/-- Specification reading of softness: some Ace can be counted as 11,
every other card at its nominal value and every other Ace at 1, without
the total exceeding 21. -/
def softSpec (h : Hand) : Prop :=
  (∃ c ∈ h.cards, c.rank = Rank.ace) ∧
    nonAceValue h.cards + 11 + (aceCount h.cards - 1) ≤ 21

instance (h : Hand) : Decidable (softSpec h) := by
  unfold softSpec; infer_instance

lemma aceCount_pos_of_mem {cs : List Card}
    (hc : ∃ c ∈ cs, c.rank = Rank.ace) : 1 ≤ aceCount cs := by
  obtain ⟨c, hmem, hrank⟩ := hc
  unfold aceCount
  have hmemf : c ∈ cs.filter (fun c => c.rank = Rank.ace) := by
    rw [List.mem_filter]
    exact ⟨hmem, by simp [hrank]⟩
  exact List.length_pos_of_mem hmemf

lemma is_soft_eq (h : Hand) :
    h.is_soft = (h.cards.any (fun c => c.rank = Rank.ace) &&
      decide (nonAceValue h.cards + aceCount h.cards + 10 ≤ 21)) := by
  unfold Hand.is_soft
  by_cases hany : h.cards.any (fun c => c.rank = Rank.ace) <;> simp [hany]

/-- C8: `Hand.is_soft` is true exactly when some Ace can still be counted
as 11 — all other cards nominal, all other Aces as 1 — within 21; in
particular it is true for a two-card blackjack (Ace plus a ten-valued
card). -/
theorem hand_is_soft_spec :
    (∀ h : Hand, h.is_soft = true ↔ softSpec h) ∧
      (Hand.is_soft ⟨[⟨.hearts, .ace⟩, ⟨.spades, .king⟩], false⟩) = true := by
  refine ⟨fun h => ?_, by decide⟩
  rw [is_soft_eq]
  unfold softSpec
  simp only [Bool.and_eq_true, List.any_eq_true, decide_eq_true_eq]
  constructor
  · rintro ⟨hex, hle⟩
    have hcount := aceCount_pos_of_mem hex
    exact ⟨hex, by omega⟩
  · rintro ⟨hex, hle⟩
    have hcount := aceCount_pos_of_mem hex
    exact ⟨hex, by omega⟩

/-- C10: every call of `BlackjackSimulator.update_statistics` increments
exactly one of `player_wins` / `dealer_wins` / `pushes`
(`player_win` and `player_win_blackjack` both count as `player_wins`) and
increments `total_bets` by one, so it preserves
`player_wins + dealer_wins + pushes = total_bets`. -/
theorem update_statistics_counter_invariant
    (cfg : SimulationConfig) (res : SimResults) (r : HandResult)
    (pv dv : Nat) :
    let res' := updateStatistics cfg res r pv dv
    res'.player_wins + res'.dealer_wins + res'.pushes =
        res.player_wins + res.dealer_wins + res.pushes + 1 ∧
      res'.total_bets = res.total_bets + 1 ∧
      ((r = .player_win ∨ r = .player_win_blackjack) →
        res'.player_wins = res.player_wins + 1 ∧
          res'.dealer_wins = res.dealer_wins ∧ res'.pushes = res.pushes) ∧
      (r = .dealer_win →
        res'.dealer_wins = res.dealer_wins + 1 ∧
          res'.player_wins = res.player_wins ∧ res'.pushes = res.pushes) ∧
      (r = .push →
        res'.pushes = res.pushes + 1 ∧
          res'.player_wins = res.player_wins ∧
          res'.dealer_wins = res.dealer_wins) ∧
      (res.player_wins + res.dealer_wins + res.pushes = res.total_bets →
        res'.player_wins + res'.dealer_wins + res'.pushes =
          res'.total_bets) := by
  cases r <;>
    simp only [updateStatistics, reduceCtorEq, or_self, or_false, false_or,
      if_true, if_false, reduceIte] <;>
    split_ifs <;> simp <;> omega

/-- Witness for C10 at a concrete call: one `push` round recorded from the
fresh results record of `setup`. -/
theorem update_statistics_counter_invariant_witness :
    (updateStatistics SimulationConfig.default SimResults.init
          HandResult.push 17 17).player_wins +
        (updateStatistics SimulationConfig.default SimResults.init
          HandResult.push 17 17).dealer_wins +
        (updateStatistics SimulationConfig.default SimResults.init
          HandResult.push 17 17).pushes =
      (updateStatistics SimulationConfig.default SimResults.init
          HandResult.push 17 17).total_bets := by
  have h := update_statistics_counter_invariant SimulationConfig.default
    SimResults.init HandResult.push 17 17
  exact h.2.2.2.2.2 (by decide)

/-- Specification reading of the player decision: build the hand
descriptor (soft-tagged total when soft, else hard total), consult the
override table for an exact `(descriptor, up-card value)` match only when
an up-card is supplied and the table is non-empty, and otherwise apply the
default: hit iff the value is below `stand_threshold`, or the value is
exactly 17 and the hand is soft and `hit_soft_17` is enabled. -/
def shouldHitSpec (ps : PlayerStrategy) (h : Hand) (up : Option Card) : Bool :=
  let descriptor : HandDesc :=
    if h.is_soft then .soft h.get_value else .hard h.get_value
  let override : Option Bool :=
    match up with
    | some u =>
      if ¬ ps.hit_rules.isEmpty then
        lookupRule ps.hit_rules (descriptor, u.get_value)
      else none
    | none => none
  match override with
  | some b => b
  | none =>
    decide (h.get_value < ps.stand_threshold) ||
      (decide (h.get_value = 17) && h.is_soft && ps.hit_soft_17)

/-- C9: `PlayerStrategy.should_hit` agrees with the two-tier
override-then-default specification on every hand, up-card and rule
table. -/
theorem player_should_hit_spec (ps : PlayerStrategy) (h : Hand)
    (up : Option Card) : ps.should_hit h up = shouldHitSpec ps h up := by
  unfold PlayerStrategy.should_hit shouldHitSpec
  cases up with
  | none =>
    split_ifs <;> simp_all
  | some u =>
    by_cases hempty : ps.hit_rules.isEmpty
    · simp only [hempty, not_true, ite_true, ite_false, if_false]
      split_ifs <;> simp_all
    · by_cases hsoft : h.is_soft
      · simp only [hempty, hsoft, not_true, not_false_iff, ite_true, ite_false]
        cases hlook : lookupRule ps.hit_rules
            (HandDesc.soft h.get_value, u.get_value) <;>
          simp_all
      · simp only [hempty, hsoft, not_true, not_false_iff, ite_true, ite_false]
        cases hlook : lookupRule ps.hit_rules
            (HandDesc.hard h.get_value, u.get_value) <;>
          simp_all

/-- Draw `n` cards in sequence from a shoe (proof scaffolding for
exercising `Shoe.draw` along a concrete run). -/
def drawN (shuffle : List Card → List Card) :
    Nat → ShoeState → Option (List Card × ShoeState)
  | 0, s => some ([], s)
  | n + 1, s =>
    match s.draw shuffle with
    | none => none
    | some (c, s') =>
      match drawN shuffle n s' with
      | none => none
      | some (cs, s'') => some (c :: cs, s'')

lemma deck_build_length : Deck.build.length = 52 := by decide

lemma fresh_decks_length (n : Nat) :
    (List.replicate n Deck.build).flatten.length = 52 * n := by
  induction n with
  | zero => simp
  | succ n ih =>
    rw [List.replicate_succ, List.flatten_cons, List.length_append, ih,
      deck_build_length]
    ring

/-- C5 (amended): immediately after any `build_and_shuffle`, the shoe
holds `52 * num_decks` fresh cards plus the entire prior discard pile and
the discard pile is empty; the total `shoe + discard + in-play` right
after a rebuild is therefore `52 * num_decks + (prior discard) + in-play`,
which collapses to `52 * num_decks` at construction, where the discard
pile is empty and nothing is in play. -/
theorem build_and_shuffle_card_count (shuffle : List Card → List Card)
    (hs : PreservesLength shuffle) (s : ShoeState)
    (inPlay : Nat) :
    ((s.build_and_shuffle shuffle).cards.length =
        52 * s.num_decks + s.discard_pile.length ∧
      (s.build_and_shuffle shuffle).discard_pile = [] ∧
      (s.build_and_shuffle shuffle).cards.length +
          (s.build_and_shuffle shuffle).discard_pile.length + inPlay =
        52 * s.num_decks + s.discard_pile.length + inPlay) ∧
      ∀ nd rc : Nat,
        (ShoeState.mk' shuffle nd rc).cards.length +
            (ShoeState.mk' shuffle nd rc).discard_pile.length + 0 =
          52 * nd := by
  have hs' : ∀ l : List Card, (shuffle l).length = l.length := hs
  have hbuild : ∀ t : ShoeState,
      (t.build_and_shuffle shuffle).cards.length =
          52 * t.num_decks + t.discard_pile.length ∧
        (t.build_and_shuffle shuffle).discard_pile = [] := by
    intro t
    unfold ShoeState.build_and_shuffle
    by_cases hd : t.discard_pile.isEmpty
    · have hdl : t.discard_pile.length = 0 := by
        rwa [List.isEmpty_iff_length_eq_zero] at hd
      simp [hd, hs', fresh_decks_length, hdl]
      rw [deck_build_length]; ring
    · simp [hd, hs', fresh_decks_length]
      rw [deck_build_length]; ring
  refine ⟨⟨(hbuild s).1, (hbuild s).2, by
    rw [(hbuild s).1, (hbuild s).2]; simp⟩, ?_⟩
  intro nd rc
  have h := hbuild { num_decks := nd, reshuffle_cutoff := rc, cards := []
                     discard_pile := [], continuous_shuffle := rc = 0 }
  unfold ShoeState.mk'
  rw [h.1, h.2]
  simp

/-- Witness for C5's amended theorem: the identity shuffle on a one-deck
shoe whose discard pile holds one card — the rebuilt shoe has
`52 * 1 + 1 = 53` cards. -/
theorem build_and_shuffle_card_count_witness :
    (ShoeState.build_and_shuffle (fun l => l)
        { num_decks := 1, reshuffle_cutoff := 5, cards := []
          discard_pile := [⟨.hearts, .ace⟩], continuous_shuffle := false
          : ShoeState }).cards.length = 52 * 1 + 1 := by
  have h := build_and_shuffle_card_count (fun l => l) (fun l => rfl)
    { num_decks := 1, reshuffle_cutoff := 5, cards := []
      discard_pile := [⟨.hearts, .ace⟩], continuous_shuffle := false } 0
  rw [h.1.1]
  decide

/-- The C5 scenario, decided by evaluation: draw a one-deck cutoff-5 shoe
down to 5 remaining cards, return the 47 drawn cards to the discard pile,
and perform the reshuffle the next draw triggers; check that the rebuilt
shoe's count plus discard plus in-play (zero) differs from
`52 * num_decks`. -/
def c5CheckScenario : Bool :=
  match drawN (fun l => l) 47 (ShoeState.mk' (fun l => l) 1 5) with
  | some (cs, s1) =>
    let s2 := s1.return_to_discard (fun l => l) cs
    let s3 := s2.build_and_shuffle (fun l => l)
    decide (¬ (s3.cards.length + s3.discard_pile.length + 0 = 52 * s3.num_decks))
  | none => false

/-- Counterexample to C5 as stated, along a concrete run of the source
operations: a one-deck shoe with cutoff 5 is drawn down to 5 remaining
cards, the 47 drawn cards are returned to the discard pile, and the
reshuffle the next draw performs leaves a shoe of `52 + 47 = 99` cards
with an empty discard pile and nothing in play — not `52 * 1`. -/
theorem build_and_shuffle_counterexample : c5CheckScenario = true := by decide

/-- C6: in cutoff mode (`reshuffle_cutoff > 0`, so `continuous_shuffle`
is false), a draw from a shoe at or below the cutoff first rebuilds from
`num_decks` fresh decks plus the discard pile, shuffles, and only then
returns the front card; with 6 decks, cutoff 52 and an empty discard
pile, the triggering draw leaves `312 - 1 = 311` cards. -/
theorem draw_cutoff_reshuffle (shuffle : List Card → List Card)
    (hs : PreservesLength shuffle) (s : ShoeState)
    (hpos : 0 < s.reshuffle_cutoff) (hcont : s.continuous_shuffle = false)
    (hlow : s.cards.length ≤ s.reshuffle_cutoff) :
    (∀ c rest, (s.build_and_shuffle shuffle).cards = c :: rest →
        s.draw shuffle =
          some (c, { s.build_and_shuffle shuffle with cards := rest })) ∧
      (s.num_decks = 6 → s.discard_pile = [] →
        ∃ c s', s.draw shuffle = some (c, s') ∧
          s'.cards.length = 312 - 1) := by
  have hs' : ∀ l : List Card, (shuffle l).length = l.length := hs
  have hcond : (s.cards.length ≤ s.reshuffle_cutoff ∧
      ¬ s.continuous_shuffle = true) := ⟨hlow, by rw [hcont]; simp⟩
  have hdraw : ∀ c rest, (s.build_and_shuffle shuffle).cards = c :: rest →
      s.draw shuffle =
        some (c, { s.build_and_shuffle shuffle with cards := rest }) := by
    intro c rest hcards
    unfold ShoeState.draw
    rw [if_pos hcond]
    simp only [hcards]
  refine ⟨hdraw, ?_⟩
  intro hnd hdp
  have hlen : (s.build_and_shuffle shuffle).cards.length = 312 := by
    unfold ShoeState.build_and_shuffle
    rw [hdp]
    simp only [List.isEmpty_nil, if_true, ite_true, hs', fresh_decks_length, hnd]
  match hcards : (s.build_and_shuffle shuffle).cards with
  | [] => rw [hcards] at hlen; simp at hlen
  | c :: rest =>
    refine ⟨c, { s.build_and_shuffle shuffle with cards := rest },
      hdraw c rest hcards, ?_⟩
    have hcr : (c :: rest).length = 312 := by rw [← hcards, hlen]
    simpa using hcr

/-- Witness for C6: the identity shuffle and a depleted 6-deck shoe
(cutoff 52, nothing left, empty discard): the triggering draw succeeds and
leaves 311 cards. -/
theorem draw_cutoff_reshuffle_witness :
    ∃ c s', ShoeState.draw (fun l => l)
        { num_decks := 6, reshuffle_cutoff := 52, cards := []
          discard_pile := [], continuous_shuffle := false } =
        some (c, s') ∧ s'.cards.length = 312 - 1 := by
  exact (draw_cutoff_reshuffle (fun l => l) (fun l => rfl)
    { num_decks := 6, reshuffle_cutoff := 52, cards := []
      discard_pile := [], continuous_shuffle := false }
    (by decide) rfl (by decide)).2 rfl rfl

/-! ### Helper lemmas on the blackjack branches and the net-unit
bookkeeping -/

/-- The player strategy `BlackjackSimulator.setup` builds under the
default configuration: threshold 17, no soft-17 hit, empty rule table. -/
def defaultPlayerStrategy : PlayerStrategy :=
  { stand_threshold := 17, hit_soft_17 := false, hit_rules := [] }

lemma playHand_dealer_blackjack (shuffle : List Card → List Card)
    (ps : PlayerStrategy) (d17 : Bool) (fuel : Nat) (res : SimResults)
    (st : ShoeState) (ph dh : Hand) (hdb : dh.is_blackjack = true)
    (hpb : ph.is_blackjack = false) :
    playHand shuffle ps d17 fuel res st ph dh =
      some ⟨.player_win_blackjack, ph.get_value, 21, ph, dh, st,
        { res with blackjacks := res.blackjacks + 1 }⟩ := by
  unfold playHand
  simp [hdb, hpb]

lemma playHand_player_blackjack (shuffle : List Card → List Card)
    (ps : PlayerStrategy) (d17 : Bool) (fuel : Nat) (res : SimResults)
    (st : ShoeState) (ph dh : Hand) (hpb : ph.is_blackjack = true)
    (hdb : dh.is_blackjack = false) :
    playHand shuffle ps d17 fuel res st ph dh =
      some ⟨.dealer_win, 21, dh.get_value, ph, dh, st,
        { res with blackjacks := res.blackjacks + 1 }⟩ := by
  unfold playHand
  simp [hdb, hpb]

lemma update_net_player_win_blackjack (cfg : SimulationConfig)
    (res : SimResults) (pv dv : Nat) :
    (updateStatistics cfg res .player_win_blackjack pv dv).net_win_amount =
        res.net_win_amount + cfg.blackjack_payout *
          (if cfg.commission_on_blackjack then cfg.get_commission_multiplier
            else 1) ∧
      (updateStatistics cfg res .player_win_blackjack pv dv).player_wins =
        res.player_wins + 1 := by
  unfold updateStatistics
  by_cases hc : cfg.commission_on_blackjack <;>
    split_ifs <;> simp_all <;> ring

lemma update_net_dealer_win (cfg : SimulationConfig) (res : SimResults)
    (pv dv : Nat) :
    (updateStatistics cfg res .dealer_win pv dv).net_win_amount =
        res.net_win_amount - 1 ∧
      (updateStatistics cfg res .dealer_win pv dv).dealer_wins =
        res.dealer_wins + 1 := by
  unfold updateStatistics
  split_ifs <;> simp_all

lemma update_net_player_win (cfg : SimulationConfig) (res : SimResults)
    (pv dv : Nat) :
    (updateStatistics cfg res .player_win pv dv).net_win_amount =
        res.net_win_amount + cfg.get_commission_multiplier ∧
      (updateStatistics cfg res .player_win pv dv).player_wins =
        res.player_wins + 1 := by
  unfold updateStatistics
  split_ifs <;> simp_all

lemma update_net_push (cfg : SimulationConfig) (res : SimResults)
    (pv dv : Nat) :
    (updateStatistics cfg res .push pv dv).net_win_amount =
        res.net_win_amount ∧
      (updateStatistics cfg res .push pv dv).pushes = res.pushes + 1 := by
  unfold updateStatistics
  split_ifs <;> simp_all

lemma sidebetPlayHand_dealer_blackjack_nohit
    (shuffle : List Card → List Card) (ps : PlayerStrategy)
    (cfg : SimulationConfig) (fuel : Nat) (res : SidebetResults)
    (st : ShoeState) (ph dh : Hand) (hdb : dh.is_blackjack = true)
    (hpb : ph.is_blackjack = false)
    (hnohit : cfg.hit_against_blackjack = false) :
    sidebetPlayHand shuffle ps cfg fuel res st ph dh =
      some ⟨.dealer_win, ph.get_value, 21, ph, dh, st,
        { res with dealer_blackjacks := res.dealer_blackjacks + 1 }⟩ := by
  unfold sidebetPlayHand
  simp [hdb, hpb, hnohit]

lemma sidebetPlayHand_player_blackjack (shuffle : List Card → List Card)
    (ps : PlayerStrategy) (cfg : SimulationConfig) (fuel : Nat)
    (res : SidebetResults) (st : ShoeState) (ph dh : Hand)
    (hpb : ph.is_blackjack = true) (hdb : dh.is_blackjack = false) :
    sidebetPlayHand shuffle ps cfg fuel res st ph dh =
      some ⟨.player_win, 21, dh.get_value, ph, dh, st,
        { res with player_blackjacks := res.player_blackjacks + 1 }⟩ := by
  unfold sidebetPlayHand
  simp [hdb, hpb]

/-- C1 (amended): on a round where exactly one initial hand is a
blackjack, `BlackjackSimulator.play_hand` behaves as the claim states —
dealer-only blackjack is a bettor win (`"player_win_blackjack"`) paid
`blackjack_payout`, commission-reduced only under
`commission_on_blackjack`, and player-only blackjack is a bettor loss
netting −1 — while `SidebetSimulator.play_hand` classifies the same
rounds with the opposite orientation: dealer-only blackjack returns
`"dealer_win"` (a −1 bettor loss under `update_statistics`), and
player-only blackjack returns `"player_win"` (a bettor win at the
commission-adjusted even-money amount). -/
theorem blackjack_round_classification :
    (∀ (shuffle : List Card → List Card) (ps : PlayerStrategy) (d17 : Bool)
        (fuel : Nat) (res : SimResults) (st : ShoeState) (ph dh : Hand),
      dh.is_blackjack = true → ph.is_blackjack = false →
        playHand shuffle ps d17 fuel res st ph dh =
          some ⟨.player_win_blackjack, ph.get_value, 21, ph, dh, st,
            { res with blackjacks := res.blackjacks + 1 }⟩) ∧
    (∀ (cfg : SimulationConfig) (res : SimResults) (pv dv : Nat),
      (updateStatistics cfg res .player_win_blackjack pv dv).net_win_amount =
          res.net_win_amount + cfg.blackjack_payout *
            (if cfg.commission_on_blackjack then cfg.get_commission_multiplier
              else 1) ∧
        (updateStatistics cfg res .player_win_blackjack pv dv).player_wins =
          res.player_wins + 1) ∧
    (∀ (shuffle : List Card → List Card) (ps : PlayerStrategy) (d17 : Bool)
        (fuel : Nat) (res : SimResults) (st : ShoeState) (ph dh : Hand),
      ph.is_blackjack = true → dh.is_blackjack = false →
        playHand shuffle ps d17 fuel res st ph dh =
          some ⟨.dealer_win, 21, dh.get_value, ph, dh, st,
            { res with blackjacks := res.blackjacks + 1 }⟩) ∧
    (∀ (cfg : SimulationConfig) (res : SimResults) (pv dv : Nat),
      (updateStatistics cfg res .dealer_win pv dv).net_win_amount =
        res.net_win_amount - 1) ∧
    (∀ (shuffle : List Card → List Card) (ps : PlayerStrategy)
        (cfg : SimulationConfig) (fuel : Nat) (res : SidebetResults)
        (st : ShoeState) (ph dh : Hand),
      dh.is_blackjack = true → ph.is_blackjack = false →
        cfg.hit_against_blackjack = false →
        (sidebetPlayHand shuffle ps cfg fuel res st ph dh).map
            PlayOutcome.result = some .dealer_win) ∧
    (∀ (shuffle : List Card → List Card) (ps : PlayerStrategy)
        (cfg : SimulationConfig) (fuel : Nat) (res : SidebetResults)
        (st : ShoeState) (ph dh : Hand),
      ph.is_blackjack = true → dh.is_blackjack = false →
        (sidebetPlayHand shuffle ps cfg fuel res st ph dh).map
            PlayOutcome.result = some .player_win) ∧
    (∀ (cfg : SimulationConfig) (res : SimResults) (pv dv : Nat),
      (updateStatistics cfg res .player_win pv dv).net_win_amount =
        res.net_win_amount + cfg.get_commission_multiplier) := by
  refine ⟨playHand_dealer_blackjack, update_net_player_win_blackjack,
    playHand_player_blackjack,
    fun cfg res pv dv => (update_net_dealer_win cfg res pv dv).1,
    ?_, ?_,
    fun cfg res pv dv => (update_net_player_win cfg res pv dv).1⟩
  · intro shuffle ps cfg fuel res st ph dh hdb hpb hnohit
    rw [sidebetPlayHand_dealer_blackjack_nohit shuffle ps cfg fuel res st
      ph dh hdb hpb hnohit]
    rfl
  · intro shuffle ps cfg fuel res st ph dh hpb hdb
    rw [sidebetPlayHand_player_blackjack shuffle ps cfg fuel res st
      ph dh hpb hdb]
    rfl

/-- Witness for C1's amended theorem: a concrete dealer blackjack
(`A♥ K♠`, dealer) against a player 17 (`9♦ 8♣`), under the default
configuration, for both simulators. -/
theorem blackjack_round_classification_witness :
    playHand (fun l => l) defaultPlayerStrategy false 0 SimResults.init
        { num_decks := 6, reshuffle_cutoff := 52, cards := []
          discard_pile := [], continuous_shuffle := false }
        ⟨[⟨.diamonds, .r9⟩, ⟨.clubs, .r8⟩], false⟩
        ⟨[⟨.hearts, .ace⟩, ⟨.spades, .king⟩], true⟩ =
      some ⟨.player_win_blackjack, 17, 21,
        ⟨[⟨.diamonds, .r9⟩, ⟨.clubs, .r8⟩], false⟩,
        ⟨[⟨.hearts, .ace⟩, ⟨.spades, .king⟩], true⟩,
        { num_decks := 6, reshuffle_cutoff := 52, cards := []
          discard_pile := [], continuous_shuffle := false },
        { SimResults.init with blackjacks := 1 }⟩ ∧
    (sidebetPlayHand (fun l => l) defaultPlayerStrategy
        SimulationConfig.default 0 SidebetResults.init
        { num_decks := 6, reshuffle_cutoff := 52, cards := []
          discard_pile := [], continuous_shuffle := false }
        ⟨[⟨.diamonds, .r9⟩, ⟨.clubs, .r8⟩], false⟩
        ⟨[⟨.hearts, .ace⟩, ⟨.spades, .king⟩], true⟩).map
      PlayOutcome.result = some .dealer_win := by
  constructor
  · have h := blackjack_round_classification.1 (fun l => l)
      defaultPlayerStrategy false 0 SimResults.init
      { num_decks := 6, reshuffle_cutoff := 52, cards := []
        discard_pile := [], continuous_shuffle := false }
      ⟨[⟨.diamonds, .r9⟩, ⟨.clubs, .r8⟩], false⟩
      ⟨[⟨.hearts, .ace⟩, ⟨.spades, .king⟩], true⟩ (by decide) (by decide)
    rw [h]
    rfl
  · exact blackjack_round_classification.2.2.2.2.1 (fun l => l)
      defaultPlayerStrategy SimulationConfig.default 0 SidebetResults.init
      { num_decks := 6, reshuffle_cutoff := 52, cards := []
        discard_pile := [], continuous_shuffle := false }
      ⟨[⟨.diamonds, .r9⟩, ⟨.clubs, .r8⟩], false⟩
      ⟨[⟨.hearts, .ace⟩, ⟨.spades, .king⟩], true⟩ (by decide) (by decide) rfl

/-- Counterexample to C1 as stated: for the dealer blackjack `A♥ K♠`
against the player 17 `9♦ 8♣` under the default configuration,
`SidebetSimulator.play_hand` returns `"dealer_win"`, which
`update_statistics` books as a −1 bettor loss — not a bettor win paid at
the `blackjack_payout` ratio (here `1 × 0.95 = 0.95`). -/
theorem blackjack_round_counterexample :
    (sidebetPlayHand (fun l => l) defaultPlayerStrategy
        SimulationConfig.default 0 SidebetResults.init
        { num_decks := 6, reshuffle_cutoff := 52, cards := []
          discard_pile := [], continuous_shuffle := false }
        ⟨[⟨.diamonds, .r9⟩, ⟨.clubs, .r8⟩], false⟩
        ⟨[⟨.hearts, .ace⟩, ⟨.spades, .king⟩], true⟩).map
        PlayOutcome.result = some HandResult.dealer_win ∧
      (updateStatistics SimulationConfig.default SimResults.init
          .dealer_win 17 21).net_win_amount = -1 ∧
      ¬ ((-1 : ℚ) = SimulationConfig.default.blackjack_payout *
          SimulationConfig.default.get_commission_multiplier) := by
  refine ⟨by decide, ?_, ?_⟩
  · rw [(update_net_dealer_win SimulationConfig.default SimResults.init
      17 21).1]
    norm_num [SimResults.init]
  · norm_num [SimulationConfig.default, SimulationConfig.get_commission_multiplier]

/-! ### The final-comparison outcome (claim C2) -/

/-- Outcome from the bettor's point of view (the bettor backs the
dealer). -/
inductive Bettor
  | win | loss | tie
  deriving DecidableEq, Repr

/-- The bettor reading `update_statistics` gives each result string:
`"player_win"` and `"player_win_blackjack"` add to the net (bettor win),
`"dealer_win"` subtracts one unit (bettor loss), `"push"` leaves it
unchanged. -/
def resultBettor : HandResult → Bettor
  | .player_win => .win
  | .player_win_blackjack => .win
  | .dealer_win => .loss
  | .push => .tie

/-- The specification's final-comparison table: both bust → push; only
the player busts → bettor win; only the dealer busts → bettor loss;
otherwise the strictly higher value wins for its side, a player-side
victory being a bettor loss and a dealer-side victory a bettor win;
equal → push. -/
def bettorSpecOutcome (pBust dBust : Bool) (pv dv : Nat) : Bettor :=
  if pBust ∧ dBust then .tie
  else if pBust then .win
  else if dBust then .loss
  else if pv > dv then .loss
  else if dv > pv then .win
  else .tie

/-- Swap of the bettor's wins and losses. -/
def Bettor.flip : Bettor → Bettor
  | .win => .loss
  | .loss => .win
  | .tie => .tie

lemma playHand_compare (shuffle : List Card → List Card)
    (ps : PlayerStrategy) (d17 : Bool) (fuel : Nat) (res : SimResults)
    (st : ShoeState) (ph dh : Hand) (out : PlayOutcome SimResults)
    (hpb : ph.is_blackjack = false) (hdb : dh.is_blackjack = false)
    (h : playHand shuffle ps d17 fuel res st ph dh = some out) :
    ∃ ph' st' dh' st'',
      playerDrawLoop shuffle ps dh.get_dealer_up_card fuel st ph =
          some (ph', st') ∧
        dealerDrawLoop shuffle d17 fuel st' dh = some (dh', st'') ∧
        out = ⟨(if ph'.is_bust ∧ dh'.is_bust then .push
            else if ph'.is_bust then .player_win
            else if dh'.is_bust then .dealer_win
            else if ph'.get_value > dh'.get_value then .dealer_win
            else if dh'.get_value > ph'.get_value then .player_win
            else .push),
          ph'.get_value, dh'.get_value, ph', dh', st'', res⟩ := by
  unfold playHand at h
  simp only [hpb, hdb, Bool.false_eq_true, false_and, and_false, if_false,
    reduceIte] at h
  split at h
  · exact absurd h (by simp)
  next ph' st' hp =>
    split at h
    · exact absurd h (by simp)
    next dh' st'' hd =>
      simp only [Option.some_inj] at h
      exact ⟨ph', st', dh', st'', hp, hd, h.symm⟩

lemma sidebetPlayHand_compare (shuffle : List Card → List Card)
    (ps : PlayerStrategy) (cfg : SimulationConfig) (fuel : Nat)
    (res : SidebetResults) (st : ShoeState) (ph dh : Hand)
    (out : PlayOutcome SidebetResults)
    (hpb : ph.is_blackjack = false) (hdb : dh.is_blackjack = false)
    (h : sidebetPlayHand shuffle ps cfg fuel res st ph dh = some out) :
    ∃ ph' st' dh' st'',
      playerDrawLoop shuffle ps dh.get_dealer_up_card fuel st ph =
          some (ph', st') ∧
        dealerDrawLoop shuffle cfg.dealer_hit_soft_17 fuel st' dh =
          some (dh', st'') ∧
        out = ⟨(if ph'.is_bust ∧ dh'.is_bust then .push
            else if ph'.is_bust then .dealer_win
            else if dh'.is_bust then .player_win
            else if ph'.get_value > dh'.get_value then .player_win
            else if dh'.get_value > ph'.get_value then .dealer_win
            else .push),
          ph'.get_value, dh'.get_value, ph', dh', st'', res⟩ := by
  unfold sidebetPlayHand at h
  simp only [hpb, hdb, Bool.false_eq_true, false_and, and_false,
    and_true, true_and, if_false, reduceIte] at h
  split at h
  · exact absurd h (by simp)
  next ph' st' hp =>
    split at h
    · exact absurd h (by simp)
    next dh' st'' hd =>
      simp only [Option.some_inj] at h
      exact ⟨ph', st', dh', st'', hp, hd, h.symm⟩

/-- C2 (amended): on rounds reaching the final comparison (no initial
blackjack), `BlackjackSimulator.play_hand` classifies exactly as the
claim's table states (both bust → push, only player bust → bettor win,
only dealer bust → bettor loss, else strictly higher value wins with
dealer-side victory a bettor win, equal → push), and its reported values
are the final hand values; `SidebetSimulator.play_hand` on the same
rounds produces the flipped (classic) orientation of every non-push
outcome. -/
theorem final_comparison_classification :
    (∀ (shuffle : List Card → List Card) (ps : PlayerStrategy) (d17 : Bool)
        (fuel : Nat) (res : SimResults) (st : ShoeState) (ph dh : Hand)
        (out : PlayOutcome SimResults),
      ph.is_blackjack = false → dh.is_blackjack = false →
        playHand shuffle ps d17 fuel res st ph dh = some out →
        out.player_value = out.player_hand.get_value ∧
          out.dealer_value = out.dealer_hand.get_value ∧
          resultBettor out.result =
            bettorSpecOutcome out.player_hand.is_bust out.dealer_hand.is_bust
              out.player_value out.dealer_value) ∧
      ∀ (shuffle : List Card → List Card) (ps : PlayerStrategy)
          (cfg : SimulationConfig) (fuel : Nat) (res : SidebetResults)
          (st : ShoeState) (ph dh : Hand) (out : PlayOutcome SidebetResults),
        ph.is_blackjack = false → dh.is_blackjack = false →
          sidebetPlayHand shuffle ps cfg fuel res st ph dh = some out →
          out.player_value = out.player_hand.get_value ∧
            out.dealer_value = out.dealer_hand.get_value ∧
            resultBettor out.result =
              (bettorSpecOutcome out.player_hand.is_bust
                out.dealer_hand.is_bust out.player_value
                out.dealer_value).flip := by
  constructor
  · intro shuffle ps d17 fuel res st ph dh out hpb hdb h
    obtain ⟨ph', st', dh', st'', _, _, hout⟩ :=
      playHand_compare shuffle ps d17 fuel res st ph dh out hpb hdb h
    subst hout
    refine ⟨rfl, rfl, ?_⟩
    unfold bettorSpecOutcome
    by_cases hb1 : ph'.is_bust = true <;> by_cases hb2 : dh'.is_bust = true <;>
      simp only [hb1, hb2, Bool.false_eq_true, true_and, and_true, false_and,
        and_false, if_true, if_false, reduceIte] <;>
      (try split_ifs) <;> simp_all [resultBettor]
  · intro shuffle ps cfg fuel res st ph dh out hpb hdb h
    obtain ⟨ph', st', dh', st'', _, _, hout⟩ :=
      sidebetPlayHand_compare shuffle ps cfg fuel res st ph dh out hpb hdb h
    subst hout
    refine ⟨rfl, rfl, ?_⟩
    unfold bettorSpecOutcome
    by_cases hb1 : ph'.is_bust = true <;> by_cases hb2 : dh'.is_bust = true <;>
      simp only [hb1, hb2, Bool.false_eq_true, true_and, and_true, false_and,
        and_false, if_true, if_false, reduceIte] <;>
      (try split_ifs) <;> simp_all [resultBettor, Bettor.flip]

/-- Witness for C2's amended theorem: player `K♥ 9♥` (19) against dealer
`K♦ 8♦` (18), neither side drawing; the base simulator returns
`"dealer_win"` (a bettor loss, player-side victory), the sidebet
simulator returns `"player_win"`. -/
theorem final_comparison_classification_witness :
    resultBettor HandResult.dealer_win =
        bettorSpecOutcome
          (Hand.is_bust ⟨[⟨.hearts, .king⟩, ⟨.hearts, .r9⟩], false⟩)
          (Hand.is_bust ⟨[⟨.diamonds, .king⟩, ⟨.diamonds, .r8⟩], true⟩)
          19 18 ∧
      resultBettor HandResult.player_win =
        (bettorSpecOutcome
          (Hand.is_bust ⟨[⟨.hearts, .king⟩, ⟨.hearts, .r9⟩], false⟩)
          (Hand.is_bust ⟨[⟨.diamonds, .king⟩, ⟨.diamonds, .r8⟩], true⟩)
          19 18).flip := by
  constructor
  · have h := final_comparison_classification.1 (fun l => l)
      defaultPlayerStrategy false 0 SimResults.init
      { num_decks := 6, reshuffle_cutoff := 52, cards := []
        discard_pile := [], continuous_shuffle := false }
      ⟨[⟨.hearts, .king⟩, ⟨.hearts, .r9⟩], false⟩
      ⟨[⟨.diamonds, .king⟩, ⟨.diamonds, .r8⟩], true⟩
      ⟨.dealer_win, 19, 18,
        ⟨[⟨.hearts, .king⟩, ⟨.hearts, .r9⟩], false⟩,
        ⟨[⟨.diamonds, .king⟩, ⟨.diamonds, .r8⟩], true⟩,
        { num_decks := 6, reshuffle_cutoff := 52, cards := []
          discard_pile := [], continuous_shuffle := false },
        SimResults.init⟩
      (by decide) (by decide) rfl
    exact h.2.2
  · have h := final_comparison_classification.2 (fun l => l)
      defaultPlayerStrategy SimulationConfig.default 0 SidebetResults.init
      { num_decks := 6, reshuffle_cutoff := 52, cards := []
        discard_pile := [], continuous_shuffle := false }
      ⟨[⟨.hearts, .king⟩, ⟨.hearts, .r9⟩], false⟩
      ⟨[⟨.diamonds, .king⟩, ⟨.diamonds, .r8⟩], true⟩
      ⟨.player_win, 19, 18,
        ⟨[⟨.hearts, .king⟩, ⟨.hearts, .r9⟩], false⟩,
        ⟨[⟨.diamonds, .king⟩, ⟨.diamonds, .r8⟩], true⟩,
        { num_decks := 6, reshuffle_cutoff := 52, cards := []
          discard_pile := [], continuous_shuffle := false },
        SidebetResults.init⟩
      (by decide) (by decide) rfl
    exact h.2.2

/-- Counterexample to C2 as stated: for player `K♥ 9♥` (19) versus dealer
`K♦ 8♦` (18) — a player-side victory, which the claim classifies as a
bettor loss netting −1 — `SidebetSimulator.play_hand` returns
`"player_win"`, which `update_statistics` books as `+0.95`, a bettor
win. -/
theorem final_comparison_counterexample :
    (sidebetPlayHand (fun l => l) defaultPlayerStrategy
        SimulationConfig.default 0 SidebetResults.init
        { num_decks := 6, reshuffle_cutoff := 52, cards := []
          discard_pile := [], continuous_shuffle := false }
        ⟨[⟨.hearts, .king⟩, ⟨.hearts, .r9⟩], false⟩
        ⟨[⟨.diamonds, .king⟩, ⟨.diamonds, .r8⟩], true⟩).map
        PlayOutcome.result = some HandResult.player_win ∧
      (updateStatistics SimulationConfig.default SimResults.init
          .player_win 19 18).net_win_amount = 19 / 20 ∧
      ¬ ((19 / 20 : ℚ) = -1) := by
  refine ⟨by decide, ?_, by norm_num⟩
  rw [(update_net_player_win SimulationConfig.default SimResults.init
    19 18).1]
  norm_num [SimResults.init, SimulationConfig.default,
    SimulationConfig.get_commission_multiplier]

/-! ### House edge over a scripted run (claim C3) -/

/-- The C3 configuration: defaults with `commission_pct = 0` and
`blackjack_payout = 1.0`. -/
def c3Config : SimulationConfig :=
  { SimulationConfig.default with commission_pct := 0, blackjack_payout := 1 }

/-- C3 at its scripted input: three bettor-win rounds under
`commission_pct = 0`, `blackjack_payout = 1.0` give
`net_win_amount = 3` over `total_bets = 3`; the
`SidebetSimulator.run_simulation` formula (`-net/total × 100`) reports
−100 as the claim states, while the `BlackjackSimulator.run_simulation`
formula omits the `× 100` and reports −1. -/
theorem house_edge_all_bettor_wins :
    (foldStats c3Config
        [(.player_win, 18, 20), (.player_win, 19, 20), (.player_win, 17, 19)]
      ).net_win_amount = 3 ∧
    (foldStats c3Config
        [(.player_win, 18, 20), (.player_win, 19, 20), (.player_win, 17, 19)]
      ).total_bets = 3 ∧
    houseEdgeSidebet (foldStats c3Config
      [(.player_win, 18, 20), (.player_win, 19, 20), (.player_win, 17, 19)])
      = -100 ∧
    houseEdgeBase (foldStats c3Config
      [(.player_win, 18, 20), (.player_win, 19, 20), (.player_win, 17, 19)])
      = -1 ∧
    ¬ (houseEdgeBase (foldStats c3Config
        [(.player_win, 18, 20), (.player_win, 19, 20), (.player_win, 17, 19)])
        = -100) := by
  have hfold :
      (foldStats c3Config
        [(.player_win, 18, 20), (.player_win, 19, 20), (.player_win, 17, 19)]
        ).net_win_amount = 3 ∧
      (foldStats c3Config
        [(.player_win, 18, 20), (.player_win, 19, 20), (.player_win, 17, 19)]
        ).total_bets = 3 := by
    constructor <;>
      norm_num [foldStats, updateStatistics, c3Config,
        SimulationConfig.default, SimulationConfig.get_commission_multiplier,
        SimResults.init]
  refine ⟨hfold.1, hfold.2, ?_, ?_, ?_⟩
  · unfold houseEdgeSidebet
    rw [hfold.1, hfold.2]
    norm_num
  · unfold houseEdgeBase
    rw [hfold.1, hfold.2]
    norm_num
  · unfold houseEdgeBase
    rw [hfold.1, hfold.2]
    norm_num

/-! ### Sidebet push bookkeeping (claim C4) -/

lemma update_total_bets (cfg : SimulationConfig) (res : SimResults)
    (r : HandResult) (pv dv : Nat) :
    (updateStatistics cfg res r pv dv).total_bets = res.total_bets + 1 := by
  unfold updateStatistics
  split_ifs <;> simp

/-- The payout multiplier the push block of
`SidebetSimulator.update_statistics` selects: the active mode's category
payout. -/
def sbPayoutMultiplier (cfg : SimulationConfig) (pv : Nat)
    (ph dh : Hand) : ℚ :=
  match cfg.sidebet_payout_mode with
  | .total =>
    if pv > 21 then cfg.sidebet_payouts .bustBust
    else if ph.is_blackjack ∧ dh.is_blackjack then
      cfg.sidebet_payouts .blackjackBlackjack
    else cfg.sidebet_payouts (.num pv)
  | .cards =>
    if ph.cards.length + dh.cards.length ≥ 12 then
      cfg.sidebet_payouts .twelvePlus
    else cfg.sidebet_payouts (.num (ph.cards.length + dh.cards.length))

/-- C4: on a push, the modelled `SidebetSimulator.update_statistics`
increments the push total, increments the push count of the round's
category (bust-bust, blackjack-blackjack, or the shared total 17–21),
increments the detail-matrix cell keyed by the category and the
card-count category regardless of the active payout mode, and adds the
active mode's configured payout multiplier to `sidebet_payouts`; and
after every recorded round — any result — `sidebet_edge` equals
`(sidebet_payouts − total_bets) / total_bets × 100` over the updated
values. -/
theorem sidebet_push_bookkeeping (cfg : SimulationConfig)
    (res : SidebetResults) (pv dv : Nat) (ph dh : Hand) :
    (sidebetUpdateStatistics cfg res .push pv dv ph dh).total_pushes =
        res.total_pushes + 1 ∧
      (pv > 21 →
        (sidebetUpdateStatistics cfg res .push pv dv ph dh).pushes_by_value
            .bust = res.pushes_by_value .bust + 1) ∧
      (¬ pv > 21 → ph.is_blackjack = true → dh.is_blackjack = true →
        (sidebetUpdateStatistics cfg res .push pv dv ph dh).pushes_by_value
            .blackjack = res.pushes_by_value .blackjack + 1) ∧
      (¬ pv > 21 → 17 ≤ pv →
        ¬ (ph.is_blackjack = true ∧ dh.is_blackjack = true) →
        (sidebetUpdateStatistics cfg res .push pv dv ph dh).pushes_by_value
            (.num pv) = res.pushes_by_value (.num pv) + 1) ∧
      (sidebetUpdateStatistics cfg res .push pv dv ph dh).pushes_detail_matrix
          (sbValueType pv ph dh,
            if ph.cards.length + dh.cards.length ≥ 12 then .twelvePlus
            else .num (ph.cards.length + dh.cards.length)) =
        res.pushes_detail_matrix
          (sbValueType pv ph dh,
            if ph.cards.length + dh.cards.length ≥ 12 then .twelvePlus
            else .num (ph.cards.length + dh.cards.length)) + 1 ∧
      (sidebetUpdateStatistics cfg res .push pv dv ph dh).sidebet_payouts =
        res.sidebet_payouts + sbPayoutMultiplier cfg pv ph dh ∧
      ∀ r : HandResult,
        (sidebetUpdateStatistics cfg res r pv dv ph dh).sidebet_edge =
          ((sidebetUpdateStatistics cfg res r pv dv ph dh).sidebet_payouts -
              (sidebetUpdateStatistics cfg res r pv dv ph dh).total_bets) /
            (sidebetUpdateStatistics cfg res r pv dv ph dh).total_bets *
            100 := by
  refine ⟨?_, ?_, ?_, ?_, ?_, ?_, ?_⟩
  · unfold sidebetUpdateStatistics
    simp [apply_ite SidebetResults.total_pushes, ite_self]
  · intro h1
    unfold sidebetUpdateStatistics
    simp [apply_ite SidebetResults.pushes_by_value, ite_self, h1, bump]
  · intro h1 h2 h3
    unfold sidebetUpdateStatistics
    simp [apply_ite SidebetResults.pushes_by_value, ite_self, h1, h2, h3, bump]
  · intro h1 h2 h3
    unfold sidebetUpdateStatistics
    by_cases h21 : pv = 21
    · simp [apply_ite SidebetResults.pushes_by_value, ite_self, h1, h21,
        bump, h3]
    · simp [apply_ite SidebetResults.pushes_by_value, ite_self, h1, h21,
        h2, bump, h3, Nat.lt_succ_iff, Nat.not_lt.mp h1]
  · unfold sidebetUpdateStatistics
    simp [apply_ite SidebetResults.pushes_detail_matrix, ite_self, bump]
  · unfold sidebetUpdateStatistics sbPayoutMultiplier
    cases hmode : cfg.sidebet_payout_mode <;>
      simp [apply_ite SidebetResults.sidebet_payouts, ite_self, hmode]
  · intro r
    unfold sidebetUpdateStatistics
    have htb := update_total_bets cfg res.toSimResults r pv dv
    simp [apply_ite SidebetResults.sidebet_edge,
      apply_ite SidebetResults.sidebet_payouts,
      apply_ite (fun x : SidebetResults => x.toSimResults.total_bets),
      ite_self, htb]

/-- Witness for C4: a concrete 17–17 push (`K♥ 7♥` versus dealer
`K♦ 7♦`, four cards, total mode) recorded from the fresh sidebet results
record. -/
theorem sidebet_push_bookkeeping_witness :
    (sidebetUpdateStatistics SimulationConfig.default SidebetResults.init
        .push 17 17 ⟨[⟨.hearts, .king⟩, ⟨.hearts, .r7⟩], false⟩
        ⟨[⟨.diamonds, .king⟩, ⟨.diamonds, .r7⟩], true⟩).total_pushes =
        SidebetResults.init.total_pushes + 1 ∧
      (sidebetUpdateStatistics SimulationConfig.default SidebetResults.init
          .push 17 17 ⟨[⟨.hearts, .king⟩, ⟨.hearts, .r7⟩], false⟩
          ⟨[⟨.diamonds, .king⟩, ⟨.diamonds, .r7⟩], true⟩).pushes_by_value
          (.num 17) =
        SidebetResults.init.pushes_by_value (.num 17) + 1 := by
  constructor
  · exact (sidebet_push_bookkeeping SimulationConfig.default
      SidebetResults.init 17 17 ⟨[⟨.hearts, .king⟩, ⟨.hearts, .r7⟩], false⟩
      ⟨[⟨.diamonds, .king⟩, ⟨.diamonds, .r7⟩], true⟩).1
  · exact (sidebet_push_bookkeeping SimulationConfig.default
      SidebetResults.init 17 17 ⟨[⟨.hearts, .king⟩, ⟨.hearts, .r7⟩], false⟩
      ⟨[⟨.diamonds, .king⟩, ⟨.diamonds, .r7⟩], true⟩).2.2.2.1
      (by decide) (by decide) (by decide)

end BJSim
